import Mathlib

/-!
Verification development for the behavior-tracker data-access, audit and
auth layers (scripts/data.js and scripts/auth.js), as a shallow embedding.

Modeling conventions:
* JavaScript values that flow through the audit pipeline are modeled by
  `JsVal` (strings, integer numbers, booleans, null, objects as ordered
  key/value lists, arrays).  JS numbers are restricted to integers here;
  every number the audit pipeline manipulates in the source (sizes, ids,
  matrix indices) is an integer, and `JSON.stringify` of an integer is its
  decimal notation, which keeps serialization-length reasoning faithful.
* Thrown JS errors are modeled as `Except String` results carrying the
  thrown error message verbatim; the spec's error taxonomy (InvalidArgument,
  PermissionDenied, PayloadTooLarge, StorageError) corresponds to the
  concrete messages thrown by the source.
* Store writes are modeled by environments that fix the outcome of each
  underlying store operation, and each operation returns the ordered list
  of store operations it attempted, so that "attempts a write" claims are
  statements about that trace.
-/

/-- A JavaScript value, as manipulated by the audit pipeline.  Objects are
ordered association lists (JS objects preserve insertion order for string
keys); arrays are ordered lists.  Numbers are restricted to integers. -/
inductive JsVal where
  | str : String → JsVal
  | num : Int → JsVal
  | bool : Bool → JsVal
  | null : JsVal
  | obj : List (String × JsVal) → JsVal
  | arr : List JsVal → JsVal
  deriving Repr

mutual

/-- Boolean structural equality on `JsVal` (deriving is unavailable for this
nested inductive, so decidable equality is built by hand). -/
def JsVal.beq : JsVal → JsVal → Bool
  | .str a, .str b => a == b
  | .num a, .num b => a == b
  | .bool a, .bool b => a == b
  | .null, .null => true
  | .obj a, .obj b => JsVal.beqFields a b
  | .arr a, .arr b => JsVal.beqElems a b
  | _, _ => false

/-- Field-list equality used by `JsVal.beq`. -/
def JsVal.beqFields : List (String × JsVal) → List (String × JsVal) → Bool
  | [], [] => true
  | (k, v) :: r, (k2, v2) :: r2 => k == k2 && JsVal.beq v v2 && JsVal.beqFields r r2
  | _, _ => false

/-- Element-list equality used by `JsVal.beq`. -/
def JsVal.beqElems : List JsVal → List JsVal → Bool
  | [], [] => true
  | v :: r, v2 :: r2 => JsVal.beq v v2 && JsVal.beqElems r r2
  | _, _ => false

end

mutual

theorem JsVal.beq_iff : ∀ a b : JsVal, JsVal.beq a b = true ↔ a = b
  | .str a, .str b => by simp [JsVal.beq]
  | .num a, .num b => by simp [JsVal.beq]
  | .bool a, .bool b => by simp [JsVal.beq]
  | .null, .null => by simp [JsVal.beq]
  | .obj a, .obj b => by simp [JsVal.beq, JsVal.beqFields_iff a b]
  | .arr a, .arr b => by simp [JsVal.beq, JsVal.beqElems_iff a b]
  | .str _, .num _ => by simp [JsVal.beq]
  | .str _, .bool _ => by simp [JsVal.beq]
  | .str _, .null => by simp [JsVal.beq]
  | .str _, .obj _ => by simp [JsVal.beq]
  | .str _, .arr _ => by simp [JsVal.beq]
  | .num _, .str _ => by simp [JsVal.beq]
  | .num _, .bool _ => by simp [JsVal.beq]
  | .num _, .null => by simp [JsVal.beq]
  | .num _, .obj _ => by simp [JsVal.beq]
  | .num _, .arr _ => by simp [JsVal.beq]
  | .bool _, .str _ => by simp [JsVal.beq]
  | .bool _, .num _ => by simp [JsVal.beq]
  | .bool _, .null => by simp [JsVal.beq]
  | .bool _, .obj _ => by simp [JsVal.beq]
  | .bool _, .arr _ => by simp [JsVal.beq]
  | .null, .str _ => by simp [JsVal.beq]
  | .null, .num _ => by simp [JsVal.beq]
  | .null, .bool _ => by simp [JsVal.beq]
  | .null, .obj _ => by simp [JsVal.beq]
  | .null, .arr _ => by simp [JsVal.beq]
  | .obj _, .str _ => by simp [JsVal.beq]
  | .obj _, .num _ => by simp [JsVal.beq]
  | .obj _, .bool _ => by simp [JsVal.beq]
  | .obj _, .null => by simp [JsVal.beq]
  | .obj _, .arr _ => by simp [JsVal.beq]
  | .arr _, .str _ => by simp [JsVal.beq]
  | .arr _, .num _ => by simp [JsVal.beq]
  | .arr _, .bool _ => by simp [JsVal.beq]
  | .arr _, .null => by simp [JsVal.beq]
  | .arr _, .obj _ => by simp [JsVal.beq]

theorem JsVal.beqFields_iff : ∀ a b : List (String × JsVal),
    JsVal.beqFields a b = true ↔ a = b
  | [], [] => by simp [JsVal.beqFields]
  | (k, v) :: r, (k2, v2) :: r2 => by
    simp [JsVal.beqFields, JsVal.beq_iff v v2, JsVal.beqFields_iff r r2, and_assoc]
  | [], _ :: _ => by simp [JsVal.beqFields]
  | _ :: _, [] => by simp [JsVal.beqFields]

theorem JsVal.beqElems_iff : ∀ a b : List JsVal, JsVal.beqElems a b = true ↔ a = b
  | [], [] => by simp [JsVal.beqElems]
  | v :: r, v2 :: r2 => by
    simp [JsVal.beqElems, JsVal.beq_iff v v2, JsVal.beqElems_iff r r2]
  | [], _ :: _ => by simp [JsVal.beqElems]
  | _ :: _, [] => by simp [JsVal.beqElems]

end

instance : DecidableEq JsVal := fun a b =>
  decidable_of_iff (JsVal.beq a b = true) (JsVal.beq_iff a b)

/-- JS truthiness of a value ("" and 0 are falsy, objects and arrays truthy). -/
def jsTruthy : JsVal → Bool
  | .str s => s ≠ ""
  | .num n => n ≠ 0
  | .bool b => b
  | .null => false
  | .obj _ => true
  | .arr _ => true

/-- Whether `typeof v === 'object'` holds in JS (true for objects, arrays and
null). -/
def jsTypeofIsObject : JsVal → Bool
  | .obj _ => true
  | .arr _ => true
  | .null => true
  | _ => false

/-- Whether `v` is a non-null object reference, i.e. `typeof v === 'object' &&
v !== null` (true for objects and arrays). -/
def jsIsObjectRef : JsVal → Bool
  | .obj _ => true
  | .arr _ => true
  | _ => false

/-- The index/value association list a JS array presents as an object: element
`i` is own-property `toString i` (canonical index strings only). -/
def arrayIndexFields : Nat → List JsVal → List (String × JsVal)
  | _, [] => []
  | i, v :: rest => (toString i, v) :: arrayIndexFields (i + 1) rest

/-- Own-property read `v[k]`, returning `none` for `undefined`. -/
def getField (v : JsVal) (k : String) : Option JsVal :=
  match v with
  | .obj fields => fields.lookup k
  | .arr xs => (arrayIndexFields 0 xs).lookup k
  | _ => none

/-- Property assignment on an assembled field list: replaces the value at an
existing key in place (JS objects keep the original insertion position). -/
def setField : List (String × JsVal) → String → JsVal → List (String × JsVal)
  | [], k, v => [(k, v)]
  | (k2, v2) :: rest, k, v =>
    if k2 = k then (k, v) :: rest else (k2, v2) :: setField rest k v

/-- Prototype-polluting keys skipped by `sanitizeObject` (data.js line 95). -/
def isPollutingKey (k : String) : Bool :=
  k == "__proto__" || k == "constructor" || k == "prototype"

mutual

/-- Embedding of `sanitizeObject` (data.js lines 86-111): deep-copies a value,
dropping `__proto__`/`constructor`/`prototype` keys at every level.  A
non-object (or null) input is returned unchanged.  Because the copy is built
with `const sanitized = {}` and `for (const key in obj)`, an array input is
rebuilt as a plain object keyed by its index strings. -/
def sanitizeObject : JsVal → JsVal
  | .obj fields => .obj (sanitizeFields fields)
  | .arr xs => .obj (sanitizeElems 0 xs)
  | v => v

/-- The `for (const key in obj)` loop of `sanitizeObject` over an object's own
fields: polluting keys are skipped, object-reference values are recursively
sanitized, primitives are copied (recursing on a primitive is the identity,
matching the `typeof value === 'object' && value !== null` branch). -/
def sanitizeFields : List (String × JsVal) → List (String × JsVal)
  | [] => []
  | (k, v) :: rest =>
    if isPollutingKey k then sanitizeFields rest
    else (k, sanitizeObject v) :: sanitizeFields rest

/-- The same loop over an array: `for...in` enumerates the index strings in
order, and assignment into `sanitized` stores them as plain object keys. -/
def sanitizeElems : Nat → List JsVal → List (String × JsVal)
  | _, [] => []
  | i, v :: rest => (toString i, sanitizeObject v) :: sanitizeElems (i + 1) rest

end

/-- Escape of one character under `JSON.stringify` (quote and backslash; the
values exercised here contain no control characters). -/
def jsonEscapeChar (c : Char) : List Char :=
  if c = '"' then ['\\', '"']
  else if c = '\\' then ['\\', '\\']
  else [c]

/-- String-body escaping under `JSON.stringify`. -/
def jsonEscape (s : String) : String :=
  String.mk (s.data.foldr (fun c acc => jsonEscapeChar c ++ acc) [])

mutual

/-- Embedding of `JSON.stringify` on modeled values, used by
`validateAuditEntry` to measure serialized sizes (data.js lines 147, 159). -/
def jsonStringify : JsVal → String
  | .str s => "\"" ++ jsonEscape s ++ "\""
  | .num n => toString n
  | .bool b => if b then "true" else "false"
  | .null => "null"
  | .obj fields => "\x7b" ++ jsonStringifyFields fields ++ "\x7d"
  | .arr xs => "[" ++ jsonStringifyElems xs ++ "]"

/-- Comma-separated `"key":value` serialization of object fields. -/
def jsonStringifyFields : List (String × JsVal) → String
  | [] => ""
  | [(k, v)] => "\"" ++ jsonEscape k ++ "\":" ++ jsonStringify v
  | (k, v) :: rest =>
    "\"" ++ jsonEscape k ++ "\":" ++ jsonStringify v ++ "," ++ jsonStringifyFields rest

/-- Comma-separated serialization of array elements. -/
def jsonStringifyElems : List JsVal → String
  | [] => ""
  | [v] => jsonStringify v
  | v :: rest => jsonStringify v ++ "," ++ jsonStringifyElems rest

end

/-- Child value of `v` at key `k` when `v` is dereferenced like an object:
object fields by key, array elements by canonical index string. -/
def childAt (v : JsVal) (k : String) : Option JsVal :=
  match v with
  | .obj fields => fields.lookup k
  | .arr xs => (arrayIndexFields 0 xs).lookup k
  | _ => none

/-- Value found by following a key path through nested objects/arrays. -/
def getPath : JsVal → List String → Option JsVal
  | v, [] => some v
  | v, k :: p =>
    match childAt v k with
    | some c => getPath c p
    | none => none

example : sanitizeObject (.obj [("__proto__", .obj [("polluted", .bool true)]), ("a", .num 1)])
    = .obj [("a", .num 1)] := by decide

example : sanitizeObject (.obj [("a", .arr [.bool true, .str "x"])])
    = .obj [("a", .obj [("0", .bool true), ("1", .str "x")])] := by decide

example : jsonStringify (.obj [("a", .num 1), ("b", .str "x")]) = "\x7b\"a\":1,\"b\":\"x\"\x7d" := by
  decide

/-- Allow-listed audit-entry fields (data.js lines 27-30), in source order. -/
def ALLOWED_AUDIT_FIELDS : List String :=
  ["action", "actorId", "actedBy", "targetId", "target",
   "details", "role", "asRole", "duration", "error"]

/-- Maximum serialized size of a whole audit entry (data.js line 31). -/
def MAX_AUDIT_ENTRY_SIZE : Nat := 10000

/-- Maximum serialized size of the `details` object (data.js line 32). -/
def MAX_DETAILS_SIZE : Nat := 5000

/-- Truthiness of `entry[k]` (an absent field is `undefined`, hence falsy). -/
def fieldTruthy (entry : JsVal) (k : String) : Bool :=
  match getField entry k with
  | some v => jsTruthy v
  | none => false

/-- Whether `entry[k]` is a truthy string, i.e. `!(!entry.k || typeof entry.k
!== 'string')`. -/
def fieldTruthyString (entry : JsVal) (k : String) : Bool :=
  match getField entry k with
  | some (.str s) => s ≠ ""
  | _ => false

/-- The replacement object installed when `details` serializes to more than
`MAX_DETAILS_SIZE` (data.js lines 150-154), with its exact source key names. -/
def truncationMarker (size : Nat) : JsVal :=
  .obj [("_truncated", .bool true),
        ("_size", .num size),
        ("summary", .str "Details truncated due to size limit")]

/-- Whitelist step of `validateAuditEntry` (data.js lines 134-140): copy the
allow-listed own fields of the entry, in allow-list order. -/
def whitelistAuditFields (entry : JsVal) : List (String × JsVal) :=
  ALLOWED_AUDIT_FIELDS.filterMap fun k =>
    (getField entry k).map fun v => (k, v)

/-- Details sanitization/truncation step of `validateAuditEntry` (data.js
lines 142-156), applied to the whitelisted field list. -/
def assembleAuditFields (entry : JsVal) : List (String × JsVal) :=
  match (whitelistAuditFields entry).lookup "details" with
  | some d =>
    if jsTruthy d && jsTypeofIsObject d then
      if (jsonStringify (sanitizeObject d)).length > MAX_DETAILS_SIZE then
        setField (whitelistAuditFields entry) "details"
          (truncationMarker (jsonStringify (sanitizeObject d)).length)
      else
        setField (whitelistAuditFields entry) "details" (sanitizeObject d)
    else whitelistAuditFields entry
  | none => whitelistAuditFields entry

/-- Embedding of `validateAuditEntry` (data.js lines 119-165): reject a
non-object entry, an entry without a truthy string `action`, or an entry with
neither a truthy `actorId` nor a truthy `actedBy`; assemble the allow-listed
fields with details sanitization/truncation; reject the assembled entry when
its total serialized size exceeds `MAX_AUDIT_ENTRY_SIZE`. -/
def validateAuditEntry (entry : JsVal) : Except String JsVal :=
  if !(jsTruthy entry && jsTypeofIsObject entry) then
    .error "Audit entry must be an object"
  else if !(fieldTruthyString entry "action") then
    .error "Audit entry must have an \"action\" field"
  else if !(fieldTruthy entry "actorId" || fieldTruthy entry "actedBy") then
    .error "Audit entry must have \"actorId\" or \"actedBy\" field"
  else
    let sanitized := assembleAuditFields entry
    let entrySize := (jsonStringify (.obj sanitized)).length
    if entrySize > MAX_AUDIT_ENTRY_SIZE then
      .error ("Audit entry too large: " ++ toString entrySize ++ " bytes (max "
        ++ toString MAX_AUDIT_ENTRY_SIZE ++ ")")
    else
      .ok (.obj sanitized)

/-- Embedding of `validateDocParams` (data.js lines 71-79).  Parameters are
typed strings here, so only the emptiness (falsiness) checks remain. -/
def validateDocParams (schoolId : String) (docId : Option String) : Except String Unit :=
  if schoolId = "" then
    .error "Invalid schoolId: must be a non-empty string"
  else
    match docId with
    | some d =>
      if d = "" then .error "Invalid document ID: must be a non-empty string"
      else .ok ()
    | none => .ok ()

/-- An incident appended by `logCustomIncident` (data.js lines 628-635). -/
structure Incident where
  id : String
  label : String
  colorHex : String
  note : Option String
  ts : Int
  source : String
  deriving DecidableEq, Repr

/-- A store operation attempted by the data layer, in program order. -/
inductive Op where
  | dayMergeSet
  | dayIncidentsSet (incidents : List Incident)
  | totalsUpdate (pct : Int) (amPct : Option Int) (pmPct : Option Int)
  | schoolUpdate
  | auditLogAdd (entry : JsVal)
  | auditErrorAdd (original : JsVal) (errMsg : String)
  deriving DecidableEq, Repr

/-- Whether an operation is an attempt to record audit information (either to
`audit_logs` or to the `_audit_errors` fallback collection). -/
def Op.isAuditAttempt : Op → Bool
  | .auditLogAdd _ => true
  | .auditErrorAdd _ _ => true
  | _ => false

/-- Outcomes of the store writes the audit pipeline can attempt. -/
structure AuditEnv where
  logWrite : Except String Unit
  errWrite : Except String Unit

/-- The fallback leg of `audit` (data.js lines 799-813): attempt a write of
the original unsanitized entry plus the error message to `_audit_errors`; a
failure of that write is only logged, so the result is always `ok`. -/
def auditFallback (entry : JsVal) (errMsg : String) (env : AuditEnv) :
    List Op × Except String Unit :=
  match env.errWrite with
  | .ok _ => ([.auditErrorAdd entry errMsg], .ok ())
  | .error _ => ([.auditErrorAdd entry errMsg], .ok ())

/-- Embedding of `audit` (data.js lines 786-814): `validateDocParams` runs
before the try/catch, so an invalid `schoolId` raises to the caller; inside
the try, a validation failure or a failed `audit_logs` write degrades to the
fallback write, whose own failure is only logged. -/
def audit (schoolId : String) (entry : JsVal) (env : AuditEnv) :
    List Op × Except String Unit :=
  match validateDocParams schoolId none with
  | .error e => ([], .error e)
  | .ok _ =>
    match validateAuditEntry entry with
    | .error e => auditFallback entry e env
    | .ok sanitized =>
      match env.logWrite with
      | .ok _ => ([.auditLogAdd sanitized], .ok ())
      | .error e =>
        let fb := auditFallback entry e env
        (.auditLogAdd sanitized :: fb.1, fb.2)

instance {ε α : Type} [DecidableEq ε] [DecidableEq α] : DecidableEq (Except ε α) :=
  fun a b =>
    match a, b with
    | .ok x, .ok y => decidable_of_iff (x = y) (by simp)
    | .error x, .error y => decidable_of_iff (x = y) (by simp)
    | .ok _, .error _ => isFalse (by simp)
    | .error _, .ok _ => isFalse (by simp)

example :
    validateAuditEntry (.obj [("action", .str "x"), ("actedBy", .str "u"), ("junk", .num 3)])
      = .ok (.obj [("action", .str "x"), ("actedBy", .str "u")]) := by decide

example :
    (audit "s1" (.obj [("action", .str "x"), ("actedBy", .str "u")])
        ⟨.ok (), .ok ()⟩).2 = .ok () := by decide

example :
    (audit "" (.obj [("action", .str "x"), ("actedBy", .str "u")])
        ⟨.ok (), .ok ()⟩).2 = .error "Invalid schoolId: must be a non-empty string" := by decide

/-- A plan schedule entry (a Period: id, rotation-day/subject label, AM flag). -/
structure Period where
  id : String
  label : String
  am : Bool
  deriving DecidableEq, Repr

/-- A plan goal (id, label, kind string: "stepper" or "checkbox"). -/
structure Goal where
  id : String
  label : String
  kind : String
  deriving DecidableEq, Repr

/-- The parts of a Plan document read by the recalculator: `planType`
(possibly absent), `schedule` and `goals`. -/
structure Plan where
  planType : Option String
  schedule : List Period
  goals : List Goal
  deriving DecidableEq, Repr

/-- A recorded matrix cell value: a number, a boolean, or an explicit null
(skipped by the recalculator exactly like an absent cell).  Numbers are
restricted to integers, matching the global modeling convention. -/
inductive CellVal where
  | num (n : Int)
  | bool (b : Bool)
  | null
  deriving DecidableEq, Repr

/-- The two-level matrix mapping: period id → goal id → recorded value. -/
abbrev DayMatrix := List (String × List (String × CellVal))

/-- Cell lookup `matrix[period.id]?.[goal.id]` (with `|| {}` on the period
level), returning `none` for `undefined`. -/
def lookupCell (matrix : DayMatrix) (periodId goalId : String) : Option CellVal :=
  match matrix.lookup periodId with
  | some periodData => periodData.lookup goalId
  | none => none

/-- JS `Number(value)` on a recorded cell value. -/
def cellToNumber : CellVal → Int
  | .num n => n
  | .bool b => if b then 1 else 0
  | .null => 0

/-- JS truthiness of a recorded cell value. -/
def cellTruthy : CellVal → Bool
  | .num n => n ≠ 0
  | .bool b => b
  | .null => false

/-- The six accumulators of `recalculateDayTotals` (data.js lines 688-693). -/
structure RecalcAcc where
  totalPoints : Int
  totalPossible : Int
  amPoints : Int
  amPossible : Int
  pmPoints : Int
  pmPossible : Int
  deriving DecidableEq, Repr

/-- All-zero initial accumulators. -/
def RecalcAcc.zero : RecalcAcc := ⟨0, 0, 0, 0, 0, 0⟩

/-- One graded cell's contribution (data.js lines 703-727): a stepper adds its
numeric value to points and 2 to possible, a checkbox adds 1/0 by truthiness
to points and 1 to possible; the same increment is routed into the AM or PM
accumulators by `period.am`; any other goal kind contributes nothing. -/
def applyCell (period : Period) (goal : Goal) (value : CellVal) (acc : RecalcAcc) : RecalcAcc :=
  if goal.kind = "stepper" then
    let numValue := cellToNumber value
    if period.am then
      { acc with totalPoints := acc.totalPoints + numValue,
                 totalPossible := acc.totalPossible + 2,
                 amPoints := acc.amPoints + numValue,
                 amPossible := acc.amPossible + 2 }
    else
      { acc with totalPoints := acc.totalPoints + numValue,
                 totalPossible := acc.totalPossible + 2,
                 pmPoints := acc.pmPoints + numValue,
                 pmPossible := acc.pmPossible + 2 }
  else if goal.kind = "checkbox" then
    let checkValue : Int := if cellTruthy value then 1 else 0
    if period.am then
      { acc with totalPoints := acc.totalPoints + checkValue,
                 totalPossible := acc.totalPossible + 1,
                 amPoints := acc.amPoints + checkValue,
                 amPossible := acc.amPossible + 1 }
    else
      { acc with totalPoints := acc.totalPoints + checkValue,
                 totalPossible := acc.totalPossible + 1,
                 pmPoints := acc.pmPoints + checkValue,
                 pmPossible := acc.pmPossible + 1 }
  else acc

/-- Inner-loop body: look the cell up and, unless it is undefined (`none`) or
null, apply its contribution (data.js lines 700-728). -/
def stepGoal (matrix : DayMatrix) (period : Period) (acc : RecalcAcc) (goal : Goal) : RecalcAcc :=
  match lookupCell matrix period.id goal.id with
  | none => acc
  | some value => if value = CellVal.null then acc else applyCell period goal value acc

/-- The `for (const goal of plan.goals)` loop for one period. -/
def foldGoals (matrix : DayMatrix) (period : Period) : List Goal → RecalcAcc → RecalcAcc
  | [], acc => acc
  | g :: gs, acc => foldGoals matrix period gs (stepGoal matrix period acc g)

/-- The `for (const period of plan.schedule)` loop. -/
def foldPeriods (matrix : DayMatrix) (goals : List Goal) : List Period → RecalcAcc → RecalcAcc
  | [], acc => acc
  | p :: ps, acc => foldPeriods matrix goals ps (foldGoals matrix p goals acc)

/-- Accumulator state after both loops of `recalculateDayTotals`. -/
def computeAcc (plan : Plan) (matrix : DayMatrix) : RecalcAcc :=
  foldPeriods matrix plan.goals plan.schedule RecalcAcc.zero

/-- JS `Math.round` (half-values round toward positive infinity). -/
def jsRound (x : Rat) : Int := Int.floor (x + 1 / 2)

/-- Whether the character list `s` starts with the character list `pat`. -/
def strListStartsWith : List Char → List Char → Bool
  | _, [] => true
  | [], _ :: _ => false
  | c :: cs, p :: ps => c == p && strListStartsWith cs ps

/-- Whether `pat` occurs contiguously inside `s`. -/
def strListHasSub : List Char → List Char → Bool
  | [], pat => strListStartsWith [] pat
  | c :: cs, pat => strListStartsWith (c :: cs) pat || strListHasSub cs pat

/-- JS `String.prototype.includes`. -/
def strIncludes (s pat : String) : Bool := strListHasSub s.data pat.data

/-- The `plan.planType?.includes('AMPM')` test (data.js line 736). -/
def planTypeHasAMPM (plan : Plan) : Bool :=
  match plan.planType with
  | some t => strIncludes t "AMPM"
  | none => false

/-- The derived totals object persisted to the Day document: `pct` always;
`amPct`/`pmPct` only when the plan type carries the AM/PM marker. -/
structure Totals where
  pct : Int
  amPct : Option Int
  pmPct : Option Int
  deriving DecidableEq, Repr

/-- Pure core of `recalculateDayTotals` (data.js lines 686-739): run both
loops, compute `pct = round(points / possible * 100)` with the
divide-by-zero guard yielding 0, and add `amPct`/`pmPct` (same formula on the
AM/PM accumulators) exactly when `planType` contains "AMPM". -/
def computeTotals (plan : Plan) (matrix : DayMatrix) : Totals :=
  let acc := computeAcc plan matrix
  let pct : Int :=
    if acc.totalPossible > 0 then
      jsRound ((acc.totalPoints : Rat) / (acc.totalPossible : Rat) * 100)
    else 0
  if planTypeHasAMPM plan then
    { pct := pct,
      amPct := some (if acc.amPossible > 0 then
        jsRound ((acc.amPoints : Rat) / (acc.amPossible : Rat) * 100) else 0),
      pmPct := some (if acc.pmPossible > 0 then
        jsRound ((acc.pmPoints : Rat) / (acc.pmPossible : Rat) * 100) else 0) }
  else
    { pct := pct, amPct := none, pmPct := none }

/-- The Day-document fields read back by the data layer. -/
structure DayDoc where
  matrix : DayMatrix
  incidents : List Incident
  deriving DecidableEq, Repr

/-- Environment for one run of `recalculateDayTotals`: the plan and day
documents as read, plus the outcome of the totals write. -/
structure RecalcEnv where
  planDoc : Option Plan
  dayDoc : Option DayDoc
  totalsWrite : Except String Unit

/-- Embedding of `recalculateDayTotals` (data.js lines 669-750): abort
silently when the plan or day document is missing, otherwise compute the
totals and attempt the overwrite of the `totals` field.  The whole body is
wrapped in a catch-all, so it never raises and a failed totals write is
swallowed; the function's value is just the list of attempted writes. -/
def recalculateDayTotals (env : RecalcEnv) : List Op :=
  match env.planDoc with
  | none => []
  | some plan =>
    match env.dayDoc with
    | none => []
    | some day =>
      let t := computeTotals plan day.matrix
      [.totalsUpdate t.pct t.amPct t.pmPct]

theorem cellNum_ne_null (n : Int) : (CellVal.num n = CellVal.null) = False :=
  eq_false fun h => CellVal.noConfusion h

theorem cellBool_ne_null (b : Bool) : (CellVal.bool b = CellVal.null) = False :=
  eq_false fun h => CellVal.noConfusion h

example :
    computeTotals ⟨some "PercentageAMPM", [⟨"P1", "A", true⟩], [⟨"G1", "On Task", "stepper"⟩]⟩
      [("P1", [("G1", .num 2)])] = ⟨100, some 100, some 0⟩ := by
  norm_num [computeTotals, computeAcc, foldPeriods, foldGoals, stepGoal, applyCell,
    lookupCell, cellToNumber, jsRound, planTypeHasAMPM, strIncludes, strListHasSub,
    strListStartsWith, RecalcAcc.zero, List.lookup, cellNum_ne_null]

example :
    computeTotals ⟨some "Percentage", [⟨"P1", "A", true⟩], [⟨"G1", "On Task", "stepper"⟩]⟩
      [("P1", [("G1", .num 2)])] = ⟨100, none, none⟩ := by
  norm_num [computeTotals, computeAcc, foldPeriods, foldGoals, stepGoal, applyCell,
    lookupCell, cellToNumber, jsRound, planTypeHasAMPM, strIncludes, strListHasSub,
    strListStartsWith, RecalcAcc.zero, List.lookup, cellNum_ne_null]
  decide

/-- A JS error as thrown by the store client: an optional error `code` (e.g.
"permission-denied") and a message. -/
structure JsError where
  code : Option String
  message : String
  deriving DecidableEq, Repr

/-- The non-retryable classification of `retryWithBackoff` (data.js line 55). -/
def isNonRetryableCode (e : JsError) : Bool :=
  e.code == some "permission-denied" || e.code == some "not-found"

/-- Default maximum retry attempts (data.js line 23). -/
def MAX_RETRY_ATTEMPTS : Nat := 3

/-- The `for (let attempt = 1; attempt <= maxAttempts; attempt++)` loop of
`retryWithBackoff` (data.js lines 46-62), from iteration `attempt` on.  The
operation is modeled as a function of the attempt number; the result carries
the attempt number at which the loop returned, which equals the total number
of invocations performed.  `none` models the `undefined` returned when the
loop body never runs (only possible when `maxAttempts = 0`). -/
def retryLoop {α : Type} (fn : Nat → Except JsError α) (maxAttempts attempt : Nat) :
    Option (Except JsError α × Nat) :=
  if _h : attempt > maxAttempts then none
  else
    match fn attempt with
    | .ok v => some (.ok v, attempt)
    | .error e =>
      if attempt = maxAttempts then some (.error e, attempt)
      else if isNonRetryableCode e then some (.error e, attempt)
      else retryLoop fn maxAttempts (attempt + 1)
termination_by maxAttempts + 1 - attempt
decreasing_by omega

/-- Embedding of `retryWithBackoff` (data.js lines 45-63): run the retry loop
starting at attempt 1.  The backoff delays between attempts do not affect the
value computed and are not modeled. -/
def retryWithBackoff {α : Type} (fn : Nat → Except JsError α) (maxAttempts : Nat) :
    Option (Except JsError α × Nat) :=
  retryLoop fn maxAttempts 1

/-- The audit-context triple produced by `getAuditContext` (auth.js 332-353)
and consumed by every writer. -/
structure AuditCtx where
  actedBy : String
  asRole : String
  asUserId : String
  deriving DecidableEq, Repr

/-- The fields of an audit context as spread into an audit entry by
`{...ctx, ...}` (object insertion order of `getAuditContext`'s literal). -/
def ctxFields (c : AuditCtx) : List (String × JsVal) :=
  [("actedBy", .str c.actedBy), ("asRole", .str c.asRole), ("asUserId", .str c.asUserId)]

/-- A custom quick-log button passed to `logCustomIncident`. -/
structure IncButton where
  id : String
  label : String
  colorHex : String
  deriving DecidableEq, Repr

/-- Environment fixing the outcome of every store operation a single writer
call can attempt, plus the clock/randomness inputs of incident construction. -/
structure WriterEnv where
  dayWrite : Except String Unit
  recalc : RecalcEnv
  auditEnv : AuditEnv
  dayRead : Except String (Option DayDoc)
  schoolWrite : Except String Unit
  now : Int
  rand : String

/-- A matrix cell value as a JS value (for the audit entry details). -/
def cellAsJsVal : CellVal → JsVal
  | .num n => .num n
  | .bool b => .bool b
  | .null => .null

/-- Embedding of `saveMatrixCell` (data.js lines 494-538): validate ids,
required params, value type and audit context; merge-write the cell; invoke
the recalculator (which never raises); then call `audit`; any error raised
inside the try block is rethrown wrapped as "Failed to save matrix cell:".
`value` is typed number-or-boolean-or-null here, so of the source's
`typeof` check only the null case can fail. -/
def saveMatrixCell (schoolId planId dayKey periodId goalId : String) (value : CellVal)
    (ctx : Option AuditCtx) (env : WriterEnv) : List Op × Except String Unit :=
  match validateDocParams schoolId (some planId) with
  | .error e => ([], .error e)
  | .ok _ =>
    if dayKey = "" || periodId = "" || goalId = "" then
      ([], .error "Missing required parameters")
    else if value = CellVal.null then
      ([], .error "Value must be a number or boolean")
    else
      match ctx with
      | none => ([], .error "Audit context is required")
      | some c =>
        if c.actedBy = "" then ([], .error "Audit context is required")
        else
          match env.dayWrite with
          | .error e => ([.dayMergeSet], .error ("Failed to save matrix cell: " ++ e))
          | .ok _ =>
            let recalcOps := recalculateDayTotals env.recalc
            let entry : JsVal := .obj (ctxFields c ++
              [("action", .str "matrix_cell_update"),
               ("target", .str (planId ++ "/" ++ dayKey)),
               ("details", .obj [("periodId", .str periodId), ("goalId", .str goalId),
                                 ("value", cellAsJsVal value)])])
            let auditRes := audit schoolId entry env.auditEnv
            match auditRes.2 with
            | .ok _ => (.dayMergeSet :: recalcOps ++ auditRes.1, .ok ())
            | .error e =>
              (.dayMergeSet :: recalcOps ++ auditRes.1,
               .error ("Failed to save matrix cell: " ++ e))

/-- Embedding of `saveComment` (data.js lines 549-596): validate ids, role and
audit context (`text` is typed, so the string check cannot fail); merge-write
the comment field chosen by `role`; then call `audit`; errors in the try
block are rethrown wrapped as "Failed to save comment:". -/
def saveComment (schoolId planId dayKey role text : String)
    (ctx : Option AuditCtx) (env : WriterEnv) : List Op × Except String Unit :=
  match validateDocParams schoolId (some planId) with
  | .error e => ([], .error e)
  | .ok _ =>
    if role = "" then ([], .error "Invalid role parameter")
    else
      match ctx with
      | none => ([], .error "Audit context is required")
      | some c =>
        if c.actedBy = "" then ([], .error "Audit context is required")
        else
          match env.dayWrite with
          | .error e => ([.dayMergeSet], .error ("Failed to save comment: " ++ e))
          | .ok _ =>
            let entry : JsVal := .obj (ctxFields c ++
              [("action", .str "comment_save"),
               ("target", .str (planId ++ "/" ++ dayKey)),
               ("details", .obj [("role", .str role), ("textLength", .num text.length)])])
            let auditRes := audit schoolId entry env.auditEnv
            match auditRes.2 with
            | .ok _ => (.dayMergeSet :: auditRes.1, .ok ())
            | .error e => (.dayMergeSet :: auditRes.1, .error ("Failed to save comment: " ++ e))

/-- Embedding of `logCustomIncident` (data.js lines 608-661): validate ids,
button, source and audit context; read the current incidents array (an
unretried read whose failure is rethrown wrapped), append a freshly
constructed incident, merge-write the full array; then call `audit`; errors
in the try block are rethrown wrapped as "Failed to log incident:". -/
def logCustomIncident (schoolId planId dayKey : String) (button : IncButton)
    (note : String) (source : String) (ctx : Option AuditCtx) (env : WriterEnv) :
    List Op × Except String Unit :=
  match validateDocParams schoolId (some planId) with
  | .error e => ([], .error e)
  | .ok _ =>
    if button.label = "" then ([], .error "Invalid button object")
    else if source ≠ "teacher" ∧ source ≠ "specials" then
      ([], .error "Source must be \"teacher\" or \"specials\"")
    else
      match ctx with
      | none => ([], .error "Audit context is required")
      | some c =>
        if c.actedBy = "" then ([], .error "Audit context is required")
        else
          let incident : Incident :=
            { id := "inc_" ++ toString env.now ++ "_" ++ env.rand,
              label := button.label,
              colorHex := if button.colorHex = "" then "#000000" else button.colorHex,
              note := if note = "" then none else some note,
              ts := env.now,
              source := source }
          match env.dayRead with
          | .error e => ([], .error ("Failed to log incident: " ++ e))
          | .ok dayOpt =>
            let currentIncidents := match dayOpt with
              | some d => d.incidents
              | none => []
            match env.dayWrite with
            | .error e =>
              ([.dayIncidentsSet (currentIncidents ++ [incident])],
               .error ("Failed to log incident: " ++ e))
            | .ok _ =>
              let entry : JsVal := .obj (ctxFields c ++
                [("action", .str "incident_log"),
                 ("target", .str (planId ++ "/" ++ dayKey)),
                 ("details", .obj [("label", .str button.label), ("source", .str source),
                                   ("hasNote", .bool (note ≠ ""))])])
              let auditRes := audit schoolId entry env.auditEnv
              match auditRes.2 with
              | .ok _ =>
                (.dayIncidentsSet (currentIncidents ++ [incident]) :: auditRes.1, .ok ())
              | .error e =>
                (.dayIncidentsSet (currentIncidents ++ [incident]) :: auditRes.1,
                 .error ("Failed to log incident: " ++ e))

/-- Embedding of `setTheme` (data.js lines 757-779): validate the school id
and the theme's shape, then update the school document.  The function takes
no audit context and performs no audit write; a failed update is rethrown
wrapped as "Failed to set theme:". -/
def setTheme (schoolId : String) (theme : JsVal) (env : WriterEnv) :
    List Op × Except String Unit :=
  match validateDocParams schoolId none with
  | .error e => ([], .error e)
  | .ok _ =>
    if !(jsTruthy theme && jsTypeofIsObject theme) then
      ([], .error "Invalid theme object")
    else
      match env.schoolWrite with
      | .ok _ => ([.schoolUpdate], .ok ())
      | .error e => ([.schoolUpdate], .error ("Failed to set theme: " ++ e))

/-- The authenticated user as held in `currentUser` (auth.js line 13). -/
structure AuthUser where
  uid : String
  deriving DecidableEq, Repr

/-- Custom claims as held in `currentClaims` (auth.js line 14); both the
`roles` array and the `schoolId` may be absent. -/
structure AuthClaims where
  roles : Option (List String)
  schoolId : Option String
  deriving DecidableEq, Repr

/-- An imitation session `{targetUid, asRole, startTime}` (auth.js 232-236). -/
structure Imitation where
  targetUid : String
  asRole : String
  startTime : Int
  deriving DecidableEq, Repr

/-- The auth module's state: current user, claims, in-memory imitation
session, and the durable localStorage copy under the `imitation` key. -/
structure AuthState where
  currentUser : Option AuthUser
  currentClaims : Option AuthClaims
  imitationState : Option Imitation
  storage : Option Imitation
  deriving DecidableEq, Repr

/-- The `currentClaims?.roles?.includes(role)` test (auth.js line 216). -/
def claimsRolesInclude (s : AuthState) (role : String) : Bool :=
  match s.currentClaims with
  | some c =>
    match c.roles with
    | some rs => rs.contains role
    | none => false
  | none => false

/-- The `claims?.roles?.[0] || 'unknown'` fallback (auth.js line 350). -/
def firstRoleOrUnknown (claims : Option AuthClaims) : String :=
  match claims with
  | some c =>
    match c.roles with
    | some (r :: _) => if r = "" then "unknown" else r
    | some [] => "unknown"
    | none => "unknown"
  | none => "unknown"

/-- Embedding of `getAuditContext` (auth.js lines 332-353): fail when no user
is authenticated; while imitating, report the imitated target's role and uid
as `asRole`/`asUserId`; in both cases `actedBy` is the real user's uid. -/
def getAuditContext (s : AuthState) : Except String AuditCtx :=
  match s.currentUser with
  | none => .error "No authenticated user for audit context"
  | some user =>
    match s.imitationState with
    | some im => .ok ⟨user.uid, im.asRole, im.targetUid⟩
    | none => .ok ⟨user.uid, firstRoleOrUnknown s.currentClaims, user.uid⟩

/-- Externally visible side effects of the auth module (storage writes, UI
events, best-effort audit writes). -/
inductive AuthEffect where
  | storageSet (im : Imitation)
  | storageRemove
  | uiImitationActive (im : Imitation)
  | uiImitationStopped
  | auditAttempt (action : String)
  deriving DecidableEq, Repr

/-- Embedding of `startImitate` (auth.js lines 214-265): reject a caller
whose claims roles do not include "admin", then reject empty parameters;
otherwise record the session in memory, persist it to localStorage, raise
the UI event, and attempt a best-effort `imitation_started` audit write
(whose failure never blocks imitation). -/
def startImitate (s : AuthState) (targetUid asRole : String) (now : Int) :
    AuthState × List AuthEffect × Except String Unit :=
  if !(claimsRolesInclude s "admin") then
    (s, [], .error "Insufficient permissions: admin role required")
  else if targetUid = "" then
    (s, [], .error "Invalid targetUid: must be a non-empty string")
  else if asRole = "" then
    (s, [], .error "Invalid asRole: must be a non-empty string")
  else
    let im : Imitation := ⟨targetUid, asRole, now⟩
    ({ s with imitationState := some im, storage := some im },
     [.storageSet im, .uiImitationActive im, .auditAttempt "imitation_started"],
     .ok ())

/-- The fallback leg's value does not depend on whether the fallback write
itself succeeds: the attempt is recorded and the result is always `ok`. -/
theorem auditFallback_eq (entry : JsVal) (errMsg : String) (env : AuditEnv) :
    auditFallback entry errMsg env = ([.auditErrorAdd entry errMsg], .ok ()) := by
  unfold auditFallback
  cases env.errWrite <;> rfl

/-- For a non-empty school id, `audit` always returns `ok`. -/
theorem audit_snd_ok (schoolId : String) (h : schoolId ≠ "") (entry : JsVal)
    (env : AuditEnv) : (audit schoolId entry env).2 = .ok () := by
  unfold audit validateDocParams
  simp only [if_neg h]
  cases validateAuditEntry entry with
  | error e => simp [auditFallback_eq]
  | ok s =>
    cases hw : env.logWrite with
    | ok _ => rfl
    | error e => simp [hw, auditFallback_eq]

/-- For a non-empty school id, `audit` always attempts at least one audit
write (to `audit_logs`, or to the fallback collection on failure). -/
theorem audit_attempt_mem (schoolId : String) (h : schoolId ≠ "") (entry : JsVal)
    (env : AuditEnv) : ∃ op ∈ (audit schoolId entry env).1, op.isAuditAttempt = true := by
  unfold audit validateDocParams
  simp only [if_neg h]
  cases validateAuditEntry entry with
  | error e =>
    refine ⟨.auditErrorAdd entry e, ?_, rfl⟩
    simp [auditFallback_eq]
  | ok s =>
    cases hw : env.logWrite with
    | ok _ => exact ⟨.auditLogAdd s, by simp, rfl⟩
    | error e => exact ⟨.auditLogAdd s, by simp [hw, auditFallback_eq], rfl⟩

/-- C1, counterexample: the claim "a call to `audit(schoolId, entry)` never
raises an error to its caller" fails at the explicit input `schoolId = ""`:
`validateDocParams` runs before the try/catch of `audit` (data.js line 787),
so the invalid-school-id validation failure is raised to the caller even
though the entry is perfectly valid and every store write would succeed. -/
theorem audit_raises_on_empty_schoolId :
    (audit "" (.obj [("action", .str "matrix_cell_update"), ("actedBy", .str "u1")])
        ⟨.ok (), .ok ()⟩).2
      = .error "Invalid schoolId: must be a non-empty string" := by decide

/-- C1, amended: for every non-empty `schoolId`, every entry and every store
behavior, `audit` returns without raising; an entry-validation failure leads
to a fallback write of the original entry and the error message, a primary
store-write failure leads to the primary attempt followed by the fallback
attempt, and a fallback failure changes nothing (the result is `ok` in every
case). -/
theorem audit_never_raises_amended (schoolId : String) (h : schoolId ≠ "")
    (entry : JsVal) (env : AuditEnv) :
    (audit schoolId entry env).2 = .ok () ∧
    (∀ e, validateAuditEntry entry = .error e →
      (audit schoolId entry env).1 = [.auditErrorAdd entry e]) ∧
    (∀ s e, validateAuditEntry entry = .ok s → env.logWrite = .error e →
      (audit schoolId entry env).1 = [.auditLogAdd s, .auditErrorAdd entry e]) := by
  refine ⟨audit_snd_ok schoolId h entry env, ?_, ?_⟩
  · intro e he
    unfold audit validateDocParams
    simp [if_neg h, he, auditFallback_eq]
  · intro s e hs hw
    unfold audit validateDocParams
    simp [if_neg h, hs, hw, auditFallback_eq]

/-- C1, witness for the amended theorem at a concrete input: a valid school
id, a valid entry, and a primary audit write that fails. -/
theorem audit_never_raises_amended_witness :
    ((audit "school_001" (.obj [("action", .str "x"), ("actedBy", .str "u1")])
        ⟨.error "unavailable", .error "unavailable"⟩).2 = .ok ()) ∧
    (∀ e, validateAuditEntry (.obj [("action", .str "x"), ("actedBy", .str "u1")]) = .error e →
      (audit "school_001" (.obj [("action", .str "x"), ("actedBy", .str "u1")])
        ⟨.error "unavailable", .error "unavailable"⟩).1
        = [.auditErrorAdd (.obj [("action", .str "x"), ("actedBy", .str "u1")]) e]) ∧
    (∀ s e, validateAuditEntry (.obj [("action", .str "x"), ("actedBy", .str "u1")]) = .ok s →
      (⟨.error "unavailable", .error "unavailable"⟩ : AuditEnv).logWrite = .error e →
      (audit "school_001" (.obj [("action", .str "x"), ("actedBy", .str "u1")])
        ⟨.error "unavailable", .error "unavailable"⟩).1
        = [.auditLogAdd s,
           .auditErrorAdd (.obj [("action", .str "x"), ("actedBy", .str "u1")]) e]) :=
  audit_never_raises_amended "school_001" (by decide)
    (.obj [("action", .str "x"), ("actedBy", .str "u1")])
    ⟨.error "unavailable", .error "unavailable"⟩

/-- C3: `getAuditContext` fails when no identity is authenticated; otherwise
it returns a triple whose `actedBy` is always the authenticated user's uid,
and, whenever an imitation session is active, whose `asRole` and `asUserId`
are the imitated target's role and uid. -/
theorem getAuditContext_spec (s : AuthState) :
    (s.currentUser = none →
      getAuditContext s = .error "No authenticated user for audit context") ∧
    (∀ u, s.currentUser = some u →
      ∃ ctx, getAuditContext s = .ok ctx ∧ ctx.actedBy = u.uid ∧
        (∀ im, s.imitationState = some im →
          ctx.asRole = im.asRole ∧ ctx.asUserId = im.targetUid)) := by
  constructor
  · intro h
    simp [getAuditContext, h]
  · intro u hu
    cases him : s.imitationState with
    | some im =>
      exact ⟨⟨u.uid, im.asRole, im.targetUid⟩, by simp [getAuditContext, hu, him], rfl,
        fun im2 him2 => by
          injection him2 with h
          subst h
          exact ⟨rfl, rfl⟩⟩
    | none =>
      exact ⟨⟨u.uid, firstRoleOrUnknown s.currentClaims, u.uid⟩,
        by simp [getAuditContext, hu, him], rfl,
        fun im2 him2 => Option.noConfusion him2⟩

/-- C3, witness: an authenticated admin imitating a teacher. -/
theorem getAuditContext_spec_witness :
    ∃ ctx,
      getAuditContext ⟨some ⟨"admin_1"⟩, some ⟨some ["admin"], some "school_001"⟩,
          some ⟨"teacher_9", "teacher", 100⟩, some ⟨"teacher_9", "teacher", 100⟩⟩
        = .ok ctx ∧
      ctx.actedBy = "admin_1" ∧
      (∀ im, (⟨some ⟨"admin_1"⟩, some ⟨some ["admin"], some "school_001"⟩,
          some ⟨"teacher_9", "teacher", 100⟩,
          some ⟨"teacher_9", "teacher", 100⟩⟩ : AuthState).imitationState = some im →
        ctx.asRole = im.asRole ∧ ctx.asUserId = im.targetUid) :=
  (getAuditContext_spec ⟨some ⟨"admin_1"⟩, some ⟨some ["admin"], some "school_001"⟩,
      some ⟨"teacher_9", "teacher", 100⟩, some ⟨"teacher_9", "teacher", 100⟩⟩).2
    ⟨"admin_1"⟩ rfl

/-- C9: for an identity whose claims roles do not include "admin",
`startImitate` fails with the permission-denied error and leaves the whole
auth state (in particular the in-memory session and the durable localStorage
copy) unchanged, performing no side effects; consequently, when no imitation
session existed before the call, none exists afterwards, in memory or in
storage. -/
theorem startImitate_non_admin (s : AuthState) (targetUid asRole : String) (now : Int)
    (hadmin : claimsRolesInclude s "admin" = false) :
    startImitate s targetUid asRole now
        = (s, [], .error "Insufficient permissions: admin role required") ∧
    (s.imitationState = none →
      (startImitate s targetUid asRole now).1.imitationState = none) ∧
    (s.storage = none → (startImitate s targetUid asRole now).1.storage = none) := by
  have h1 : startImitate s targetUid asRole now
      = (s, [], .error "Insufficient permissions: admin role required") := by
    unfold startImitate
    simp [hadmin]
  exact ⟨h1, fun h => by rw [h1]; exact h, fun h => by rw [h1]; exact h⟩

/-- C9, witness: a teacher (non-admin) attempting to imitate. -/
theorem startImitate_non_admin_witness :
    startImitate ⟨some ⟨"teacher_1"⟩, some ⟨some ["teacher"], some "school_001"⟩, none, none⟩
        "student_7" "teacher" 50
        = (⟨some ⟨"teacher_1"⟩, some ⟨some ["teacher"], some "school_001"⟩, none, none⟩,
           [], .error "Insufficient permissions: admin role required") ∧
    ((⟨some ⟨"teacher_1"⟩, some ⟨some ["teacher"], some "school_001"⟩, none, none⟩ :
        AuthState).imitationState = none →
      (startImitate ⟨some ⟨"teacher_1"⟩, some ⟨some ["teacher"], some "school_001"⟩, none, none⟩
        "student_7" "teacher" 50).1.imitationState = none) ∧
    ((⟨some ⟨"teacher_1"⟩, some ⟨some ["teacher"], some "school_001"⟩, none, none⟩ :
        AuthState).storage = none →
      (startImitate ⟨some ⟨"teacher_1"⟩, some ⟨some ["teacher"], some "school_001"⟩, none, none⟩
        "student_7" "teacher" 50).1.storage = none) :=
  startImitate_non_admin
    ⟨some ⟨"teacher_1"⟩, some ⟨some ["teacher"], some "school_001"⟩, none, none⟩
    "student_7" "teacher" 50 (by decide)

/-- C8: an operation that fails on its first two invocations with a
retryable error (not classified permission-denied or not-found) and succeeds
on the third is, under the default `maxAttempts = 3`, retried to success:
`retryWithBackoff` returns the success value and the loop performed exactly
3 invocations. -/
theorem retryWithBackoff_two_failures {α : Type} (fn : Nat → Except JsError α)
    (e1 e2 : JsError) (v : α)
    (h1 : fn 1 = .error e1) (hr1 : isNonRetryableCode e1 = false)
    (h2 : fn 2 = .error e2) (hr2 : isNonRetryableCode e2 = false)
    (h3 : fn 3 = .ok v) :
    retryWithBackoff fn MAX_RETRY_ATTEMPTS = some (.ok v, 3) := by
  unfold retryWithBackoff MAX_RETRY_ATTEMPTS
  rw [retryLoop, h1]
  norm_num [hr1]
  rw [retryLoop, h2]
  norm_num [hr2]
  rw [retryLoop]
  simp [h3]

/-- C8, witness: a concrete operation failing twice with a transient error
then succeeding with value 42. -/
theorem retryWithBackoff_two_failures_witness :
    retryWithBackoff
        (fun n => if n < 3 then .error ⟨none, "transient"⟩ else .ok (42 : Nat))
        MAX_RETRY_ATTEMPTS
      = some (.ok 42, 3) :=
  retryWithBackoff_two_failures
    (fun n => if n < 3 then .error ⟨none, "transient"⟩ else .ok (42 : Nat))
    ⟨none, "transient"⟩ ⟨none, "transient"⟩ 42
    (by decide) (by decide) (by decide) (by decide) (by decide)

/-- C6: whenever the recalculation loops accumulate `totalPossible = 0` (no
cell covered by the plan's schedule and goals was graded), the Recalculator's
`pct` is 0 by the divide-by-zero guard, not a division by zero. -/
theorem computeTotals_zero_possible (plan : Plan) (matrix : DayMatrix)
    (h : (computeAcc plan matrix).totalPossible = 0) :
    (computeTotals plan matrix).pct = 0 := by
  unfold computeTotals
  simp only [h]
  norm_num
  split <;> rfl

/-- C6, witness: a plan whose only scheduled period has no graded cells. -/
theorem computeTotals_zero_possible_witness :
    (computeAcc ⟨some "Percentage", [⟨"P1", "A", true⟩], [⟨"G1", "On Task", "stepper"⟩]⟩
        []).totalPossible = 0 ∧
    (computeTotals ⟨some "Percentage", [⟨"P1", "A", true⟩], [⟨"G1", "On Task", "stepper"⟩]⟩
        []).pct = 0 :=
  ⟨by decide,
   computeTotals_zero_possible
     ⟨some "Percentage", [⟨"P1", "A", true⟩], [⟨"G1", "On Task", "stepper"⟩]⟩ []
     (by decide)⟩

/-- A goal kind from the data model's enum. -/
def goalKindOk (g : Goal) : Prop := g.kind = "stepper" ∨ g.kind = "checkbox"

/-- A cell graded perfectly for its goal: steppers carry 2, checkboxes true. -/
def cellPerfect (matrix : DayMatrix) (p : Period) (g : Goal) : Prop :=
  ∀ v, lookupCell matrix p.id g.id = some v → v ≠ CellVal.null →
    (g.kind = "stepper" → v = CellVal.num 2) ∧ (g.kind = "checkbox" → v = CellVal.bool true)

theorem applyCell_totalPossible_le (p : Period) (g : Goal) (v : CellVal) (acc : RecalcAcc) :
    acc.totalPossible ≤ (applyCell p g v acc).totalPossible := by
  unfold applyCell
  split_ifs <;> simp <;> omega

theorem stepGoal_totalPossible_le (matrix : DayMatrix) (p : Period) (acc : RecalcAcc)
    (g : Goal) : acc.totalPossible ≤ (stepGoal matrix p acc g).totalPossible := by
  unfold stepGoal
  cases lookupCell matrix p.id g.id with
  | none => exact le_refl _
  | some v =>
    by_cases hv : v = CellVal.null
    · simp [hv]
    · simp only [if_neg hv]
      exact applyCell_totalPossible_le p g v acc

theorem foldGoals_totalPossible_le (matrix : DayMatrix) (p : Period) :
    ∀ (gs : List Goal) (acc : RecalcAcc),
      acc.totalPossible ≤ (foldGoals matrix p gs acc).totalPossible
  | [], acc => le_refl _
  | g :: gs, acc =>
    le_trans (stepGoal_totalPossible_le matrix p acc g)
      (foldGoals_totalPossible_le matrix p gs (stepGoal matrix p acc g))

theorem foldPeriods_totalPossible_le (matrix : DayMatrix) (goals : List Goal) :
    ∀ (ps : List Period) (acc : RecalcAcc),
      acc.totalPossible ≤ (foldPeriods matrix goals ps acc).totalPossible
  | [], acc => le_refl _
  | p :: ps, acc =>
    le_trans (foldGoals_totalPossible_le matrix p goals acc)
      (foldPeriods_totalPossible_le matrix goals ps (foldGoals matrix p goals acc))

theorem stepGoal_perfect_eq (matrix : DayMatrix) (p : Period) (acc : RecalcAcc) (g : Goal)
    (hk : goalKindOk g) (hp : cellPerfect matrix p g)
    (heq : acc.totalPoints = acc.totalPossible) :
    (stepGoal matrix p acc g).totalPoints = (stepGoal matrix p acc g).totalPossible := by
  unfold stepGoal
  cases hlk : lookupCell matrix p.id g.id with
  | none => exact heq
  | some v =>
    by_cases hv : v = CellVal.null
    · simp [hv, heq]
    · simp only [if_neg hv]
      have hpv := hp v hlk hv
      cases hk with
      | inl hs =>
        have : v = CellVal.num 2 := hpv.1 hs
        subst this
        unfold applyCell
        rw [hs]
        simp [cellToNumber]
        split_ifs <;> simp <;> omega
      | inr hc =>
        have : v = CellVal.bool true := hpv.2 hc
        subst this
        unfold applyCell
        rw [hc]
        simp [cellTruthy]
        split_ifs <;> simp <;> omega

theorem foldGoals_perfect_eq (matrix : DayMatrix) (p : Period) :
    ∀ (gs : List Goal) (acc : RecalcAcc),
      (∀ g ∈ gs, goalKindOk g) → (∀ g ∈ gs, cellPerfect matrix p g) →
      acc.totalPoints = acc.totalPossible →
      (foldGoals matrix p gs acc).totalPoints = (foldGoals matrix p gs acc).totalPossible
  | [], _, _, _, heq => heq
  | g :: gs, acc, hk, hp, heq =>
    foldGoals_perfect_eq matrix p gs (stepGoal matrix p acc g)
      (fun g2 h2 => hk g2 (List.mem_cons_of_mem g h2))
      (fun g2 h2 => hp g2 (List.mem_cons_of_mem g h2))
      (stepGoal_perfect_eq matrix p acc g (hk g (List.mem_cons_self g gs))
        (hp g (List.mem_cons_self g gs)) heq)

theorem foldPeriods_perfect_eq (matrix : DayMatrix) (goals : List Goal)
    (hk : ∀ g ∈ goals, goalKindOk g) :
    ∀ (ps : List Period) (acc : RecalcAcc),
      (∀ p ∈ ps, ∀ g ∈ goals, cellPerfect matrix p g) →
      acc.totalPoints = acc.totalPossible →
      (foldPeriods matrix goals ps acc).totalPoints
        = (foldPeriods matrix goals ps acc).totalPossible
  | [], _, _, heq => heq
  | p :: ps, acc, hp, heq =>
    foldPeriods_perfect_eq matrix goals hk ps (foldGoals matrix p goals acc)
      (fun p2 h2 => hp p2 (List.mem_cons_of_mem p h2))
      (foldGoals_perfect_eq matrix p goals acc hk
        (hp p (List.mem_cons_self p ps)) heq)

theorem stepGoal_graded_lt (matrix : DayMatrix) (p : Period) (acc : RecalcAcc) (g : Goal)
    (hk : goalKindOk g) (hgr : ∃ v, lookupCell matrix p.id g.id = some v ∧ v ≠ CellVal.null) :
    acc.totalPossible + 1 ≤ (stepGoal matrix p acc g).totalPossible := by
  obtain ⟨v, hlk, hv⟩ := hgr
  unfold stepGoal
  rw [hlk]
  simp only [if_neg hv]
  unfold applyCell
  cases hk with
  | inl hs => rw [hs]; simp; split_ifs <;> simp <;> omega
  | inr hc =>
    rw [hc]
    simp
    split_ifs <;> simp <;> omega

theorem foldGoals_graded_lt (matrix : DayMatrix) (p : Period) :
    ∀ (gs : List Goal) (acc : RecalcAcc),
      (∀ g ∈ gs, goalKindOk g) →
      (∃ g ∈ gs, ∃ v, lookupCell matrix p.id g.id = some v ∧ v ≠ CellVal.null) →
      acc.totalPossible + 1 ≤ (foldGoals matrix p gs acc).totalPossible
  | [], _, _, hgr => absurd hgr (by simp)
  | g :: gs, acc, hk, hgr => by
    rcases hgr with ⟨g2, hg2, hv⟩
    rcases List.mem_cons.mp hg2 with rfl | hmem
    · calc acc.totalPossible + 1
          ≤ (stepGoal matrix p acc g2).totalPossible :=
            stepGoal_graded_lt matrix p acc g2 (hk g2 hg2) hv
        _ ≤ (foldGoals matrix p gs (stepGoal matrix p acc g2)).totalPossible :=
            foldGoals_totalPossible_le matrix p gs _
    · calc acc.totalPossible + 1
          ≤ (stepGoal matrix p acc g).totalPossible + 1 := by
            have := stepGoal_totalPossible_le matrix p acc g; omega
        _ ≤ (foldGoals matrix p gs (stepGoal matrix p acc g)).totalPossible :=
            foldGoals_graded_lt matrix p gs (stepGoal matrix p acc g)
              (fun g3 h3 => hk g3 (List.mem_cons_of_mem g h3)) ⟨g2, hmem, hv⟩

theorem foldPeriods_graded_lt (matrix : DayMatrix) (goals : List Goal)
    (hk : ∀ g ∈ goals, goalKindOk g) :
    ∀ (ps : List Period) (acc : RecalcAcc),
      (∃ p ∈ ps, ∃ g ∈ goals, ∃ v, lookupCell matrix p.id g.id = some v ∧ v ≠ CellVal.null) →
      acc.totalPossible + 1 ≤ (foldPeriods matrix goals ps acc).totalPossible
  | [], _, hgr => absurd hgr (by simp)
  | p :: ps, acc, hgr => by
    rcases hgr with ⟨p2, hp2, hgoal⟩
    rcases List.mem_cons.mp hp2 with rfl | hmem
    · calc acc.totalPossible + 1
          ≤ (foldGoals matrix p2 goals acc).totalPossible :=
            foldGoals_graded_lt matrix p2 goals acc hk hgoal
        _ ≤ (foldPeriods matrix goals ps (foldGoals matrix p2 goals acc)).totalPossible :=
            foldPeriods_totalPossible_le matrix goals ps _
    · calc acc.totalPossible + 1
          ≤ (foldGoals matrix p goals acc).totalPossible + 1 := by
            have := foldGoals_totalPossible_le matrix p goals acc; omega
        _ ≤ (foldPeriods matrix goals ps (foldGoals matrix p goals acc)).totalPossible :=
            foldPeriods_graded_lt matrix goals hk ps (foldGoals matrix p goals acc)
              ⟨p2, hmem, hgoal⟩

/-- C7: on a day matrix where every graded stepper cell carries value 2 and
every graded checkbox cell is true (goal kinds drawn from the data model's
stepper/checkbox enum), with at least one graded cell, the Recalculator
computes `pct = 100`. -/
theorem computeTotals_perfect_day (plan : Plan) (matrix : DayMatrix)
    (hkind : ∀ g ∈ plan.goals, goalKindOk g)
    (hperf : ∀ p ∈ plan.schedule, ∀ g ∈ plan.goals, cellPerfect matrix p g)
    (hgraded : ∃ p ∈ plan.schedule, ∃ g ∈ plan.goals, ∃ v,
      lookupCell matrix p.id g.id = some v ∧ v ≠ CellVal.null) :
    (computeTotals plan matrix).pct = 100 := by
  have heq : (computeAcc plan matrix).totalPoints = (computeAcc plan matrix).totalPossible :=
    foldPeriods_perfect_eq matrix plan.goals hkind plan.schedule RecalcAcc.zero hperf rfl
  have hpos : 0 < (computeAcc plan matrix).totalPossible := by
    have := foldPeriods_graded_lt matrix plan.goals hkind plan.schedule RecalcAcc.zero hgraded
    have hz : (RecalcAcc.zero).totalPossible = 0 := rfl
    unfold computeAcc
    omega
  have hne : ((computeAcc plan matrix).totalPossible : Rat) ≠ 0 := by
    exact_mod_cast ne_of_gt (by exact_mod_cast hpos)
  have hdiv : ((computeAcc plan matrix).totalPoints : Rat)
      / ((computeAcc plan matrix).totalPossible : Rat) = 1 := by
    rw [heq]
    exact div_self hne
  have hpct : (if (computeAcc plan matrix).totalPossible > 0 then
      jsRound (((computeAcc plan matrix).totalPoints : Rat)
        / ((computeAcc plan matrix).totalPossible : Rat) * 100) else 0) = 100 := by
    rw [if_pos hpos, hdiv]
    norm_num [jsRound]
  unfold computeTotals
  split <;> simpa using hpct

/-- C7, witness: one AM period, one stepper goal graded 2 and one checkbox
goal graded true. -/
theorem computeTotals_perfect_day_witness :
    (computeTotals ⟨some "Percentage", [⟨"P1", "A", true⟩],
        [⟨"G1", "On Task", "stepper"⟩, ⟨"G2", "Respectful", "checkbox"⟩]⟩
      [("P1", [("G1", .num 2), ("G2", .bool true)])]).pct = 100 :=
  computeTotals_perfect_day
    ⟨some "Percentage", [⟨"P1", "A", true⟩],
      [⟨"G1", "On Task", "stepper"⟩, ⟨"G2", "Respectful", "checkbox"⟩]⟩
    [("P1", [("G1", .num 2), ("G2", .bool true)])]
    (by
      intro g hg
      simp only [List.mem_cons, List.not_mem_nil, or_false] at hg
      rcases hg with rfl | rfl
      · exact Or.inl rfl
      · exact Or.inr rfl)
    (by
      intro p hp g hg v hlk hv
      simp only [List.mem_cons, List.not_mem_nil, or_false] at hp hg
      subst hp
      rcases hg with rfl | rfl
      · have h2 : some (CellVal.num 2) = some v :=
          (by decide : lookupCell [("P1", [("G1", CellVal.num 2), ("G2", CellVal.bool true)])]
              "P1" "G1" = some (CellVal.num 2)).symm.trans hlk
        injection h2 with h2
        subst h2
        exact ⟨fun _ => rfl, fun h => absurd h (by decide)⟩
      · have h2 : some (CellVal.bool true) = some v :=
          (by decide : lookupCell [("P1", [("G1", CellVal.num 2), ("G2", CellVal.bool true)])]
              "P1" "G2" = some (CellVal.bool true)).symm.trans hlk
        injection h2 with h2
        subst h2
        exact ⟨fun h => absurd h (by decide), fun _ => rfl⟩)
    ⟨⟨"P1", "A", true⟩, by simp, ⟨"G1", "On Task", "stepper"⟩, by simp,
      CellVal.num 2, by simp [lookupCell, List.lookup], by simp⟩

/-- C5, counterexample: in the AM/PM-tracking case the scenario's recalculated
totals are exactly `{pct: 100, amPct: 100, pmPct: 0}` — the code emits a
`pmPct` (0, since no PM period exists in the schedule) whenever the plan type
carries the AMPM marker (data.js lines 736-739) — so they are not exactly
`{pct: 100, amPct: 100}` as claimed. -/
theorem computeTotals_scenario_counterexample :
    computeTotals ⟨some "PercentageAMPM", [⟨"P1", "A", true⟩], [⟨"G1", "On Task", "stepper"⟩]⟩
        [("P1", [("G1", CellVal.num 2)])] = ⟨100, some 100, some 0⟩ ∧
    (⟨100, some 100, some 0⟩ : Totals) ≠ ⟨100, some 100, none⟩ := by
  constructor
  · norm_num [computeTotals, computeAcc, foldPeriods, foldGoals, stepGoal, applyCell,
      lookupCell, cellToNumber, jsRound, planTypeHasAMPM, strIncludes, strListHasSub,
      strListStartsWith, RecalcAcc.zero, List.lookup, cellNum_ne_null]
  · decide

/-- C5, amended: writing the single matrix cell (periodId "P1", goalId "G1",
value 2) for a plan with schedule `[{id: "P1", am: true}]` and goals
`[{id: "G1", kind: "stepper"}]` yields recalculated totals exactly
`{pct: 100, amPct: 100, pmPct: 0}` when the planType includes the AM/PM
tracking marker ("AMPM"), and exactly `{pct: 100}` otherwise. -/
theorem computeTotals_scenario_amended (pt : String) :
    (strIncludes pt "AMPM" = true →
      computeTotals ⟨some pt, [⟨"P1", "A", true⟩], [⟨"G1", "On Task", "stepper"⟩]⟩
        [("P1", [("G1", CellVal.num 2)])] = ⟨100, some 100, some 0⟩) ∧
    (strIncludes pt "AMPM" = false →
      computeTotals ⟨some pt, [⟨"P1", "A", true⟩], [⟨"G1", "On Task", "stepper"⟩]⟩
        [("P1", [("G1", CellVal.num 2)])] = ⟨100, none, none⟩) := by
  constructor <;> intro h <;>
    norm_num [computeTotals, computeAcc, foldPeriods, foldGoals, stepGoal, applyCell,
      lookupCell, cellToNumber, jsRound, planTypeHasAMPM, h,
      RecalcAcc.zero, List.lookup, cellNum_ne_null]

/-- C5, witness for the amended theorem at the two plan types exercised by the
repository ("PercentageAMPM" carries the marker, "Percentage" does not). -/
theorem computeTotals_scenario_amended_witness :
    computeTotals ⟨some "PercentageAMPM", [⟨"P1", "A", true⟩], [⟨"G1", "On Task", "stepper"⟩]⟩
        [("P1", [("G1", CellVal.num 2)])] = ⟨100, some 100, some 0⟩ ∧
    computeTotals ⟨some "Percentage", [⟨"P1", "A", true⟩], [⟨"G1", "On Task", "stepper"⟩]⟩
        [("P1", [("G1", CellVal.num 2)])] = ⟨100, none, none⟩ :=
  ⟨(computeTotals_scenario_amended "PercentageAMPM").1 (by decide),
   (computeTotals_scenario_amended "Percentage").2 (by decide)⟩

/-- Valid parameters make `validateDocParams` succeed. -/
theorem validateDocParams_ok (schoolId : String) (docId : Option String)
    (h1 : schoolId ≠ "") (h2 : ∀ d, docId = some d → d ≠ "") :
    validateDocParams schoolId docId = .ok () := by
  unfold validateDocParams
  rw [if_neg h1]
  cases docId with
  | none => rfl
  | some d => simp [h2 d rfl]

/-- A missing audit context: `!ctx || !ctx.actedBy` in the writers. -/
def ctxMissing : Option AuditCtx → Prop
  | none => True
  | some c => c.actedBy = ""

theorem saveMatrixCell_ctx_missing (schoolId planId dayKey periodId goalId : String)
    (value : CellVal) (ctx : Option AuditCtx) (env : WriterEnv)
    (hs : schoolId ≠ "") (hp : planId ≠ "") (hdk : dayKey ≠ "") (hper : periodId ≠ "")
    (hg : goalId ≠ "") (hv : value ≠ CellVal.null) (hctx : ctxMissing ctx) :
    saveMatrixCell schoolId planId dayKey periodId goalId value ctx env
      = ([], .error "Audit context is required") := by
  unfold saveMatrixCell
  rw [validateDocParams_ok schoolId (some planId) hs (fun d hd => by cases hd; exact hp)]
  cases ctx with
  | none => simp [hdk, hper, hg, hv]
  | some c =>
    have hcb : c.actedBy = "" := hctx
    simp [hdk, hper, hg, hv, hcb]

theorem saveMatrixCell_success_audits (schoolId planId dayKey periodId goalId : String)
    (value : CellVal) (c : AuditCtx) (env : WriterEnv)
    (hs : schoolId ≠ "") (hp : planId ≠ "") (hdk : dayKey ≠ "") (hper : periodId ≠ "")
    (hg : goalId ≠ "") (hv : value ≠ CellVal.null) (hc : c.actedBy ≠ "")
    (hw : env.dayWrite = .ok ()) :
    (saveMatrixCell schoolId planId dayKey periodId goalId value (some c) env).2 = .ok () ∧
    ∃ op ∈ (saveMatrixCell schoolId planId dayKey periodId goalId value (some c) env).1,
      op.isAuditAttempt = true := by
  unfold saveMatrixCell
  rw [validateDocParams_ok schoolId (some planId) hs (fun d hd => by cases hd; exact hp)]
  simp only [hdk, hper, hg, hv, hc, hw]
  obtain ⟨op, hop, hatt⟩ := audit_attempt_mem schoolId hs
    (.obj (ctxFields c ++
      [("action", .str "matrix_cell_update"),
       ("target", .str (planId ++ "/" ++ dayKey)),
       ("details", .obj [("periodId", .str periodId), ("goalId", .str goalId),
                         ("value", cellAsJsVal value)])])) env.auditEnv
  rw [audit_snd_ok schoolId hs _ env.auditEnv]
  refine ⟨?_, op, ?_, hatt⟩
  · simp [hdk, hper, hg, hv, hc]
  · simp [hdk, hper, hg, hv, hc, hop]

theorem saveComment_ctx_missing (schoolId planId dayKey role text : String)
    (ctx : Option AuditCtx) (env : WriterEnv)
    (hs : schoolId ≠ "") (hp : planId ≠ "") (hr : role ≠ "") (hctx : ctxMissing ctx) :
    saveComment schoolId planId dayKey role text ctx env
      = ([], .error "Audit context is required") := by
  unfold saveComment
  rw [validateDocParams_ok schoolId (some planId) hs (fun d hd => by cases hd; exact hp)]
  cases ctx with
  | none => simp [hr]
  | some c =>
    have hcb : c.actedBy = "" := hctx
    simp [hr, hcb]

theorem saveComment_success_audits (schoolId planId dayKey role text : String)
    (c : AuditCtx) (env : WriterEnv)
    (hs : schoolId ≠ "") (hp : planId ≠ "") (hr : role ≠ "") (hc : c.actedBy ≠ "")
    (hw : env.dayWrite = .ok ()) :
    (saveComment schoolId planId dayKey role text (some c) env).2 = .ok () ∧
    ∃ op ∈ (saveComment schoolId planId dayKey role text (some c) env).1,
      op.isAuditAttempt = true := by
  unfold saveComment
  rw [validateDocParams_ok schoolId (some planId) hs (fun d hd => by cases hd; exact hp)]
  simp only [hr, hc, hw]
  obtain ⟨op, hop, hatt⟩ := audit_attempt_mem schoolId hs
    (.obj (ctxFields c ++
      [("action", .str "comment_save"),
       ("target", .str (planId ++ "/" ++ dayKey)),
       ("details", .obj [("role", .str role), ("textLength", .num text.length)])]))
    env.auditEnv
  rw [audit_snd_ok schoolId hs _ env.auditEnv]
  refine ⟨?_, op, ?_, hatt⟩
  · simp [hr, hc]
  · simp [hr, hc, hop]

theorem logCustomIncident_ctx_missing (schoolId planId dayKey : String)
    (button : IncButton) (note source : String) (ctx : Option AuditCtx) (env : WriterEnv)
    (hs : schoolId ≠ "") (hp : planId ≠ "") (hb : button.label ≠ "")
    (hsrc : source = "teacher" ∨ source = "specials") (hctx : ctxMissing ctx) :
    logCustomIncident schoolId planId dayKey button note source ctx env
      = ([], .error "Audit context is required") := by
  unfold logCustomIncident
  rw [validateDocParams_ok schoolId (some planId) hs (fun d hd => by cases hd; exact hp)]
  rcases hsrc with rfl | rfl <;>
    cases ctx with
    | none => simp [hb]
    | some c =>
      have hcb : c.actedBy = "" := hctx
      simp [hb, hcb]

theorem logCustomIncident_success_audits (schoolId planId dayKey : String)
    (button : IncButton) (note source : String) (c : AuditCtx) (env : WriterEnv)
    (hs : schoolId ≠ "") (hp : planId ≠ "") (hb : button.label ≠ "")
    (hsrc : source = "teacher" ∨ source = "specials") (hc : c.actedBy ≠ "")
    (dayOpt : Option DayDoc) (hrd : env.dayRead = .ok dayOpt)
    (hw : env.dayWrite = .ok ()) :
    (logCustomIncident schoolId planId dayKey button note source (some c) env).2 = .ok () ∧
    ∃ op ∈ (logCustomIncident schoolId planId dayKey button note source (some c) env).1,
      op.isAuditAttempt = true := by
  unfold logCustomIncident
  rw [validateDocParams_ok schoolId (some planId) hs (fun d hd => by cases hd; exact hp)]
  obtain ⟨op, hop, hatt⟩ := audit_attempt_mem schoolId hs
    (.obj (ctxFields c ++
      [("action", .str "incident_log"),
       ("target", .str (planId ++ "/" ++ dayKey)),
       ("details", .obj [("label", .str button.label), ("source", .str source),
                         ("hasNote", .bool (note ≠ ""))])])) env.auditEnv
  rcases hsrc with rfl | rfl <;>
    · simp only [hb, hc, hrd, hw]
      rw [audit_snd_ok schoolId hs _ env.auditEnv]
      refine ⟨?_, op, ?_, hatt⟩
      · simp [hb, hc]
      · simp only [decide_not] at hop
        simp [hb, hc, hop]

theorem setTheme_never_audits (schoolId : String) (theme : JsVal) (env : WriterEnv) :
    ∀ op ∈ (setTheme schoolId theme env).1, op.isAuditAttempt = false := by
  intro op hop
  unfold setTheme at hop
  split at hop
  · simp at hop
  · split at hop
    · simp at hop
    · split at hop
      · simp at hop
        subst hop
        rfl
      · simp at hop
        subst hop
        rfl

/-- A writer environment in which every store operation succeeds. -/
def envAllOk : WriterEnv :=
  ⟨.ok (), ⟨none, none, .ok ()⟩, ⟨.ok (), .ok ()⟩, .ok none, .ok (), 0, "r"⟩

/-- C2, counterexample: the claim quantifies over all four writers, but
`setTheme` (data.js lines 757-779) takes no audit context at all: at the
explicit input (schoolId "school_001", a well-formed theme object, all store
writes succeeding) the mutation succeeds with no audit-context check and the
trace contains no audit attempt of any kind. -/
theorem setTheme_mutates_without_audit :
    setTheme "school_001" (.obj [("mode", .str "dark")]) envAllOk
      = ([.schoolUpdate], .ok ()) ∧
    (∀ op ∈ (setTheme "school_001" (.obj [("mode", .str "dark")]) envAllOk).1,
      op.isAuditAttempt = false) := by decide

/-- C2, amended: the three Day-document writers (`saveMatrixCell`,
`saveComment`, `logCustomIncident`) fail fast with the InvalidArgument error
"Audit context is required" when the audit context is absent or lacks a
non-empty `actedBy`, and, when their validations pass and the mutation
succeeds, they return success and their trace contains an audit-write
attempt; `setTheme`, by contrast, takes no audit context, and never attempts
an audit write. -/
theorem writers_require_ctx_and_audit_amended :
    (∀ schoolId planId dayKey periodId goalId value ctx env,
      schoolId ≠ "" → planId ≠ "" → dayKey ≠ "" → periodId ≠ "" → goalId ≠ "" →
      value ≠ CellVal.null → ctxMissing ctx →
      saveMatrixCell schoolId planId dayKey periodId goalId value ctx env
        = ([], .error "Audit context is required")) ∧
    (∀ schoolId planId dayKey periodId goalId value c env,
      schoolId ≠ "" → planId ≠ "" → dayKey ≠ "" → periodId ≠ "" → goalId ≠ "" →
      value ≠ CellVal.null → AuditCtx.actedBy c ≠ "" → WriterEnv.dayWrite env = .ok () →
      (saveMatrixCell schoolId planId dayKey periodId goalId value (some c) env).2 = .ok () ∧
      ∃ op ∈ (saveMatrixCell schoolId planId dayKey periodId goalId value (some c) env).1,
        op.isAuditAttempt = true) ∧
    (∀ schoolId planId dayKey role text ctx env,
      schoolId ≠ "" → planId ≠ "" → role ≠ "" → ctxMissing ctx →
      saveComment schoolId planId dayKey role text ctx env
        = ([], .error "Audit context is required")) ∧
    (∀ schoolId planId dayKey role text c env,
      schoolId ≠ "" → planId ≠ "" → role ≠ "" → AuditCtx.actedBy c ≠ "" →
      WriterEnv.dayWrite env = .ok () →
      (saveComment schoolId planId dayKey role text (some c) env).2 = .ok () ∧
      ∃ op ∈ (saveComment schoolId planId dayKey role text (some c) env).1,
        op.isAuditAttempt = true) ∧
    (∀ schoolId planId dayKey button note source ctx env,
      schoolId ≠ "" → planId ≠ "" → IncButton.label button ≠ "" →
      (source = "teacher" ∨ source = "specials") → ctxMissing ctx →
      logCustomIncident schoolId planId dayKey button note source ctx env
        = ([], .error "Audit context is required")) ∧
    (∀ schoolId planId dayKey button note source c env dayOpt,
      schoolId ≠ "" → planId ≠ "" → IncButton.label button ≠ "" →
      (source = "teacher" ∨ source = "specials") → AuditCtx.actedBy c ≠ "" →
      WriterEnv.dayRead env = .ok dayOpt → WriterEnv.dayWrite env = .ok () →
      (logCustomIncident schoolId planId dayKey button note source (some c) env).2 = .ok () ∧
      ∃ op ∈ (logCustomIncident schoolId planId dayKey button note source (some c) env).1,
        op.isAuditAttempt = true) ∧
    (∀ schoolId theme env,
      ∀ op ∈ (setTheme schoolId theme env).1, op.isAuditAttempt = false) :=
  ⟨fun sI pI dK per gl v ctx env h1 h2 h3 h4 h5 h6 h7 =>
      saveMatrixCell_ctx_missing sI pI dK per gl v ctx env h1 h2 h3 h4 h5 h6 h7,
   fun sI pI dK per gl v c env h1 h2 h3 h4 h5 h6 h7 h8 =>
      saveMatrixCell_success_audits sI pI dK per gl v c env h1 h2 h3 h4 h5 h6 h7 h8,
   fun sI pI dK rl tx ctx env h1 h2 h3 h4 =>
      saveComment_ctx_missing sI pI dK rl tx ctx env h1 h2 h3 h4,
   fun sI pI dK rl tx c env h1 h2 h3 h4 h5 =>
      saveComment_success_audits sI pI dK rl tx c env h1 h2 h3 h4 h5,
   fun sI pI dK bt nt src ctx env h1 h2 h3 h4 h5 =>
      logCustomIncident_ctx_missing sI pI dK bt nt src ctx env h1 h2 h3 h4 h5,
   fun sI pI dK bt nt src c env dOpt h1 h2 h3 h4 h5 h6 h7 =>
      logCustomIncident_success_audits sI pI dK bt nt src c env h1 h2 h3 h4 h5 dOpt h6 h7,
   fun sI th env => setTheme_never_audits sI th env⟩

/-- C2, witness for the amended theorem: `saveMatrixCell` with a missing
context fails fast, and with a present context and a successful mutation it
returns success with an audit attempt in its trace. -/
theorem writers_require_ctx_and_audit_amended_witness :
    saveMatrixCell "school_001" "plan_1" "2025-01-06" "P1" "G1" (CellVal.num 2) none envAllOk
      = ([], .error "Audit context is required") ∧
    ((saveMatrixCell "school_001" "plan_1" "2025-01-06" "P1" "G1" (CellVal.num 2)
        (some ⟨"u1", "teacher", "u1"⟩) envAllOk).2 = .ok () ∧
      ∃ op ∈ (saveMatrixCell "school_001" "plan_1" "2025-01-06" "P1" "G1" (CellVal.num 2)
          (some ⟨"u1", "teacher", "u1"⟩) envAllOk).1, op.isAuditAttempt = true) :=
  ⟨writers_require_ctx_and_audit_amended.1 "school_001" "plan_1" "2025-01-06" "P1" "G1"
      (CellVal.num 2) none envAllOk (by decide) (by decide) (by decide) (by decide)
      (by decide) (by decide) trivial,
   (writers_require_ctx_and_audit_amended.2.1 "school_001" "plan_1" "2025-01-06" "P1" "G1"
      (CellVal.num 2) ⟨"u1", "teacher", "u1"⟩ envAllOk (by decide) (by decide) (by decide)
      (by decide) (by decide) (by decide) (by decide) rfl)⟩

/-- The 5001-character string filling the oversized details object. -/
def bigStrC4 : String := String.mk (List.replicate 5001 'a')

/-- A details object whose serialization is 5012 characters (one key "blob"
holding a 5001-character string). -/
def bigDetailsC4 : JsVal := .obj [("blob", .str bigStrC4)]

/-- An otherwise-valid audit entry carrying the oversized details object. -/
def bigEntryC4 : JsVal :=
  .obj [("action", .str "x"), ("actedBy", .str "u"), ("details", bigDetailsC4)]

theorem foldr_escape_replicate (n : Nat) :
    (List.replicate n 'a').foldr (fun c acc => jsonEscapeChar c ++ acc) []
      = List.replicate n 'a' := by
  induction n with
  | zero => rfl
  | succ n ih =>
    have ha : jsonEscapeChar 'a' = ['a'] := by decide
    simp [List.replicate_succ, ih, ha]

theorem jsonEscape_bigStr : jsonEscape bigStrC4 = bigStrC4 := by
  unfold jsonEscape bigStrC4
  rw [show (String.mk (List.replicate 5001 'a')).data = List.replicate 5001 'a' from rfl]
  rw [foldr_escape_replicate]

theorem bigStr_length : bigStrC4.length = 5001 := by
  unfold bigStrC4
  rw [show (String.mk (List.replicate 5001 'a')).length = (List.replicate 5001 'a').length
    from rfl]
  exact List.length_replicate 5001 'a' 

theorem bigDetails_sanitized : sanitizeObject bigDetailsC4 = bigDetailsC4 := rfl

theorem bigDetails_size : (jsonStringify (sanitizeObject bigDetailsC4)).length = 5012 := by
  rw [bigDetails_sanitized]
  show (jsonStringify (.obj [("blob", .str bigStrC4)])).length = 5012
  rw [show jsonStringify (.obj [("blob", .str bigStrC4)])
      = "\x7b" ++ ("\"" ++ jsonEscape "blob" ++ "\":"
          ++ ("\"" ++ jsonEscape bigStrC4 ++ "\"")) ++ "\x7d" from rfl]
  rw [jsonEscape_bigStr]
  simp only [String.length_append, bigStr_length]
  decide

theorem bigEntry_wl_lookup :
    (whitelistAuditFields bigEntryC4).lookup "details" = some bigDetailsC4 := rfl

theorem bigEntry_details_truthy :
    (jsTruthy bigDetailsC4 && jsTypeofIsObject bigDetailsC4) = true := rfl

theorem bigEntry_details_oversize :
    (jsonStringify (sanitizeObject bigDetailsC4)).length > MAX_DETAILS_SIZE := by
  rw [bigDetails_size]
  decide

theorem bigEntry_assembled :
    assembleAuditFields bigEntryC4
      = [("action", .str "x"), ("actedBy", .str "u"), ("details", truncationMarker 5012)] := by
  unfold assembleAuditFields
  rw [bigEntry_wl_lookup]
  simp only [bigEntry_details_truthy, if_true]
  rw [if_pos bigEntry_details_oversize, bigDetails_size]
  rfl

/-- C4, counterexample: at the explicit oversized entry, `validateAuditEntry`
replaces `details` with the marker object whose keys are `_truncated` and
`_size` (data.js lines 150-154), not the claimed `{truncated: true, size,
summary}` — the marker with the claimed key names is a different object. -/
theorem validateAuditEntry_marker_keys_counterexample :
    validateAuditEntry bigEntryC4
      = .ok (.obj [("action", .str "x"), ("actedBy", .str "u"),
                   ("details", truncationMarker 5012)]) ∧
    truncationMarker 5012
      ≠ .obj [("truncated", .bool true), ("size", .num 5012),
              ("summary", .str "Details truncated due to size limit")] := by
  constructor
  · unfold validateAuditEntry
    simp only [bigEntry_assembled]
    rfl
  · decide

theorem lookup_setField (l : List (String × JsVal)) (k : String) (v x : JsVal)
    (h : l.lookup k = some v) : (setField l k x).lookup k = some x := by
  induction l with
  | nil => simp [List.lookup] at h
  | cons head rest ih =>
    obtain ⟨k2, v2⟩ := head
    by_cases hk : k2 = k
    · subst hk
      simp [setField, List.lookup]
    · have hbe : (k == k2) = false := beq_eq_false_iff_ne.mpr fun he => hk he.symm
      unfold setField
      rw [if_neg hk]
      simp only [List.lookup, hbe] at h ⊢
      exact ih h

/-- The 10001-character string filling the oversized non-details field. -/
def bigErrStrC4 : String := String.mk (List.replicate 10001 'a')

/-- An entry with a small (absent) details field whose total serialization
exceeds 10000 characters through the allow-listed `error` field alone. -/
def bigTotalEntryC4 : JsVal :=
  .obj [("action", .str "x"), ("actedBy", .str "u"), ("error", .str bigErrStrC4)]

theorem bigErrStr_escape : jsonEscape bigErrStrC4 = bigErrStrC4 := by
  unfold jsonEscape bigErrStrC4
  rw [show (String.mk (List.replicate 10001 'a')).data = List.replicate 10001 'a' from rfl]
  rw [foldr_escape_replicate]

theorem bigErrStr_length : bigErrStrC4.length = 10001 := by
  unfold bigErrStrC4
  rw [show (String.mk (List.replicate 10001 'a')).length
      = (List.replicate 10001 'a').length from rfl]
  exact List.length_replicate 10001 'a'

theorem bigTotal_assembled :
    assembleAuditFields bigTotalEntryC4
      = [("action", .str "x"), ("actedBy", .str "u"), ("error", .str bigErrStrC4)] := by
  unfold assembleAuditFields
  rw [show (whitelistAuditFields bigTotalEntryC4).lookup "details" = none from rfl]
  rfl

theorem bigTotal_size :
    (jsonStringify (.obj [("action", JsVal.str "x"), ("actedBy", JsVal.str "u"),
        ("error", JsVal.str bigErrStrC4)])).length = 10040 := by
  rw [show jsonStringify (.obj [("action", JsVal.str "x"), ("actedBy", JsVal.str "u"),
        ("error", JsVal.str bigErrStrC4)])
      = "\x7b" ++ ("\"" ++ jsonEscape "action" ++ "\":" ++ ("\"" ++ jsonEscape "x" ++ "\"")
          ++ "," ++ ("\"" ++ jsonEscape "actedBy" ++ "\":" ++ ("\"" ++ jsonEscape "u" ++ "\"")
          ++ "," ++ ("\"" ++ jsonEscape "error" ++ "\":"
              ++ ("\"" ++ jsonEscape bigErrStrC4 ++ "\"")))) ++ "\x7d" from rfl]
  rw [bigErrStr_escape]
  simp only [String.length_append, bigErrStr_length]
  decide

/-- C4, amended: for every entry whose whitelisted `details` field is a
truthy object whose sanitized serialization exceeds 5000 characters, the
assembled entry's `details` is the truncation marker
`{_truncated: true, _size: size, summary}` (the source's key names); and for
every entry passing the earlier shape checks — with no assumption on its
details — the call fails with the PayloadTooLarge error exactly when the
serialized assembled entry exceeds 10000 characters, returning the assembled
entry otherwise. -/
theorem validateAuditEntry_truncation_amended (entry : JsVal) :
    (∀ d, (whitelistAuditFields entry).lookup "details" = some d →
      (jsTruthy d && jsTypeofIsObject d) = true →
      (jsonStringify (sanitizeObject d)).length > MAX_DETAILS_SIZE →
      (assembleAuditFields entry).lookup "details"
        = some (truncationMarker (jsonStringify (sanitizeObject d)).length)) ∧
    ((jsTruthy entry && jsTypeofIsObject entry) = true →
      fieldTruthyString entry "action" = true →
      (fieldTruthy entry "actorId" || fieldTruthy entry "actedBy") = true →
      ((jsonStringify (.obj (assembleAuditFields entry))).length > MAX_AUDIT_ENTRY_SIZE →
        validateAuditEntry entry
          = .error ("Audit entry too large: "
              ++ toString (jsonStringify (.obj (assembleAuditFields entry))).length
              ++ " bytes (max " ++ toString MAX_AUDIT_ENTRY_SIZE ++ ")")) ∧
      ((jsonStringify (.obj (assembleAuditFields entry))).length ≤ MAX_AUDIT_ENTRY_SIZE →
        validateAuditEntry entry = .ok (.obj (assembleAuditFields entry)))) := by
  constructor
  · intro d hd hobj hsize
    have hassemble : assembleAuditFields entry
        = setField (whitelistAuditFields entry) "details"
            (truncationMarker (jsonStringify (sanitizeObject d)).length) := by
      unfold assembleAuditFields
      rw [hd]
      simp only [hobj, if_true]
      rw [if_pos hsize]
    rw [hassemble]
    exact lookup_setField _ _ d _ hd
  · intro h1 h2 h3
    unfold validateAuditEntry
    simp only [h1, h2, h3, Bool.not_true, Bool.false_eq_true, if_false]
    constructor
    · intro hbig
      rw [if_pos hbig]
    · intro hsmall
      rw [if_neg (by omega)]

/-- C4, witness for the amended theorem at two concrete entries: the
oversized-details entry exercises the truncation conjunct, and the entry
whose `error` field alone pushes the assembled serialization to 10040
characters exercises the over-10000 PayloadTooLarge branch. -/
theorem validateAuditEntry_truncation_amended_witness :
    (assembleAuditFields bigEntryC4).lookup "details"
      = some (truncationMarker (jsonStringify (sanitizeObject bigDetailsC4)).length) ∧
    validateAuditEntry bigTotalEntryC4
      = .error ("Audit entry too large: "
          ++ toString (jsonStringify (.obj (assembleAuditFields bigTotalEntryC4))).length
          ++ " bytes (max " ++ toString MAX_AUDIT_ENTRY_SIZE ++ ")") :=
  ⟨(validateAuditEntry_truncation_amended bigEntryC4).1 bigDetailsC4
      bigEntry_wl_lookup bigEntry_details_truthy bigEntry_details_oversize,
   ((validateAuditEntry_truncation_amended bigTotalEntryC4).2 rfl rfl rfl).1
      (by rw [bigTotal_assembled, bigTotal_size]; decide)⟩

theorem sanitizeElems_eq_map : ∀ (xs : List JsVal) (i : Nat),
    sanitizeElems i xs = (arrayIndexFields i xs).map fun kv => (kv.1, sanitizeObject kv.2)
  | [], _ => rfl
  | x :: xs, i => by
    simp only [sanitizeElems, arrayIndexFields, List.map_cons]
    rw [sanitizeElems_eq_map xs (i + 1)]

theorem lookup_map_value (f : JsVal → JsVal) (k : String) :
    ∀ l : List (String × JsVal),
      (l.map fun kv => (kv.1, f kv.2)).lookup k = (l.lookup k).map f
  | [] => rfl
  | (k2, v2) :: rest => by
    cases hbe : (k == k2) with
    | true => simp [List.lookup, hbe]
    | false => simp [List.lookup, hbe, lookup_map_value f k rest]

theorem sanitizeFields_lookup (k : String) (c : JsVal) (hk : isPollutingKey k = false) :
    ∀ fields : List (String × JsVal), fields.lookup k = some c →
      (sanitizeFields fields).lookup k = some (sanitizeObject c)
  | [], h => by simp [List.lookup] at h
  | (k2, v2) :: rest, h => by
    by_cases hp2 : isPollutingKey k2 = true
    · have hne : (k == k2) = false := by
        apply beq_eq_false_iff_ne.mpr
        intro he
        rw [he, hp2] at hk
        cases hk
      unfold sanitizeFields
      rw [if_pos hp2]
      simp only [List.lookup, hne] at h
      exact sanitizeFields_lookup k c hk rest h
    · unfold sanitizeFields
      rw [if_neg hp2]
      cases hbe : (k == k2) with
      | true =>
        simp only [List.lookup, hbe] at h
        injection h with h
        subst h
        simp [List.lookup, hbe]
      | false =>
        simp only [List.lookup, hbe] at h
        simp only [List.lookup, hbe]
        exact sanitizeFields_lookup k c hk rest h

theorem childAt_sanitize (v : JsVal) (k : String) (c : JsVal)
    (hk : isPollutingKey k = false) (h : childAt v k = some c) :
    childAt (sanitizeObject v) k = some (sanitizeObject c) := by
  cases v with
  | obj fields =>
    show (sanitizeFields fields).lookup k = some (sanitizeObject c)
    exact sanitizeFields_lookup k c hk fields h
  | arr xs =>
    show (sanitizeElems 0 xs).lookup k = some (sanitizeObject c)
    rw [sanitizeElems_eq_map, lookup_map_value]
    rw [show (arrayIndexFields 0 xs).lookup k = some c from h]
    rfl
  | str s => cases h
  | num n => cases h
  | bool b => cases h
  | null => cases h

theorem sanitizeElems_keys : ∀ (xs : List JsVal) (i : Nat),
    (sanitizeElems i xs).map Prod.fst = (List.range' i xs.length).map toString
  | [], _ => rfl
  | x :: xs, i => by
    simp only [sanitizeElems, List.length_cons, List.range'_succ, List.map_cons]
    rw [sanitizeElems_keys xs (i + 1)]

/-- C10 (implicit): wherever the input contains an array — reached by a path
of non-polluting keys — `sanitizeObject` returns at that position a plain
object (the `obj` constructor, not `arr`) whose keys are exactly the decimal
index strings `"0" … toString (n-1)` of the array's elements: the deep copy
rebuilds arrays as plain objects and does not preserve array structure. -/
theorem sanitizeObject_array_at_path (p : List String) :
    ∀ (v : JsVal) (xs : List JsVal),
      getPath v p = some (.arr xs) →
      (∀ k ∈ p, isPollutingKey k = false) →
      getPath (sanitizeObject v) p = some (.obj (sanitizeElems 0 xs)) ∧
      (sanitizeElems 0 xs).map Prod.fst = (List.range xs.length).map toString := by
  induction p with
  | nil =>
    intro v xs hpath _
    simp only [getPath] at hpath
    injection hpath with hv
    subst hv
    constructor
    · rfl
    · rw [sanitizeElems_keys, List.range_eq_range']
  | cons k p ih =>
    intro v xs hpath hkeys
    unfold getPath at hpath
    cases hc : childAt v k with
    | none => rw [hc] at hpath; cases hpath
    | some c =>
      rw [hc] at hpath
      have hkhead : isPollutingKey k = false := hkeys k (List.mem_cons_self k p)
      have hrest : ∀ k2 ∈ p, isPollutingKey k2 = false :=
        fun k2 h2 => hkeys k2 (List.mem_cons_of_mem k h2)
      obtain ⟨h1, h2⟩ := ih c xs hpath hrest
      refine ⟨?_, h2⟩
      unfold getPath
      rw [childAt_sanitize v k c hkhead hc]
      exact h1

/-- C10, witness: a two-element array nested under key "a" becomes a plain
object with keys "0" and "1". -/
theorem sanitizeObject_array_at_path_witness :
    getPath (sanitizeObject (.obj [("a", .arr [.num 1, .bool true])])) ["a"]
      = some (.obj (sanitizeElems 0 [.num 1, .bool true])) ∧
    (sanitizeElems 0 [.num 1, .bool true]).map Prod.fst
      = (List.range ([JsVal.num 1, JsVal.bool true]).length).map toString :=
  sanitizeObject_array_at_path ["a"] (.obj [("a", .arr [.num 1, .bool true])])
    [.num 1, .bool true] (by decide) (by decide)
